import Mathlib

/-!
Shallow embedding of csvbase's schema-inference and conversion core
(`csvbase/conv.py`, `csvbase/streams.py`, `csvbase/value_objs.py`,
`csvbase/exc.py`) together with theorems settling the specification
claims about it.

Python strings are modelled as Lean `String` (operating on `String.data`,
the underlying `List Char`); Python `int` as `Int`; Python `float` as `ℚ`
(the exact rational shadow of decimal parsing: every value reachable in the
source is an exact finite decimal); Python exceptions as `Except` values.
The concrete regexes of `conv.py` are compiled by hand into total Boolean
matchers over `List Char`; each matcher states the regex it implements.
-/

/-! ### Python primitives -/

/-- Characters Python treats as whitespace for `str.strip()` / `str.isspace()`
(restricted to the ASCII range; the inputs in question are ASCII). -/
def isPySpace (c : Char) : Bool :=
  c = ' ' || c = '\t' || c = '\n' || c = '\r' || c = '\x0b' || c = '\x0c'

/-- Python `str.strip()`: remove whitespace characters from both ends. -/
def pyStrip (s : String) : String :=
  String.mk (((s.data.dropWhile isPySpace).reverse.dropWhile isPySpace).reverse)

/-- Python `str.isspace()`: true iff the string is non-empty and every
character is whitespace. -/
def pyIsSpaceStr (s : String) : Bool :=
  !s.data.isEmpty && s.data.all isPySpace

/-- Numeric value of a digit run, most significant first. -/
def digitsToNat (cs : List Char) : Nat :=
  cs.foldl (fun n c => 10 * n + (c.toNat - 48)) 0

/-- `value_objs.ColumnType`: the closed enumeration of column types. -/
inductive ColumnType where
  | TEXT
  | INTEGER
  | FLOAT
  | BOOLEAN
  | DATE
deriving DecidableEq, Repr

/-- `datetime.date`, as plain year/month/day numbers; validity is enforced
by `date_fromisoformat` below, matching the Python constructor. -/
structure PyDate where
  year : Nat
  month : Nat
  day : Nat
deriving DecidableEq, Repr

/-- Python runtime errors that the modelled code can raise.
`unconvertableValue` models `exc.UnconvertableValueException(expected_type,
string)` as declared in `exc.py` (a constructor with two required
positional arguments); `typeError` and `valueError` model the built-in
`TypeError` and `ValueError` (the field carries the message or the
offending data). -/
inductive PyError where
  | valueError (data : String)
  | typeError (msg : String)
  | unconvertableValue (expected : ColumnType) (raw : String)
deriving DecidableEq, Repr

/-- Decidable equality for `Except` results, so that concrete conversion
outcomes can be settled by `decide`. -/
instance {ε α : Type} [DecidableEq ε] [DecidableEq α] : DecidableEq (Except ε α) :=
  fun x y =>
    match x, y with
    | .ok a, .ok b =>
        if h : a = b then isTrue (by rw [h])
        else isFalse (by intro hh; cases hh; exact h rfl)
    | .error a, .error b =>
        if h : a = b then isTrue (by rw [h])
        else isFalse (by intro hh; cases hh; exact h rfl)
    | .ok _, .error _ => isFalse (by intro hh; cases hh)
    | .error _, .ok _ => isFalse (by intro hh; cases hh)

/-- Python `int(s)` applied to a string: strip whitespace, optional sign,
then a non-empty digit run.  (The full builtin also accepts underscore
grouping and other bases, none of which are reachable from the source,
whose inputs here consist of digits, spaces and an optional minus.) -/
def pyInt (s : String) : Except PyError Int :=
  let cs := ((s.data.dropWhile isPySpace).reverse.dropWhile isPySpace).reverse
  match cs with
  | '-' :: ds =>
      if !ds.isEmpty && ds.all Char.isDigit then .ok (-(digitsToNat ds : Int))
      else .error (.valueError s)
  | '+' :: ds =>
      if !ds.isEmpty && ds.all Char.isDigit then .ok (digitsToNat ds : Int)
      else .error (.valueError s)
  | ds =>
      if !ds.isEmpty && ds.all Char.isDigit then .ok (digitsToNat ds : Int)
      else .error (.valueError s)

/-- Unsigned decimal body: `digits* [ . digits* ]` with at least one digit
and nothing else. -/
def parseDecimal (cs : List Char) : Option ℚ :=
  let ip := cs.takeWhile Char.isDigit
  let rest := cs.dropWhile Char.isDigit
  match rest with
  | [] => if ip.isEmpty then none else some ((digitsToNat ip : ℚ))
  | '.' :: fp =>
      if fp.all Char.isDigit && (!ip.isEmpty || !fp.isEmpty) then
        some ((digitsToNat ip : ℚ) + (digitsToNat fp : ℚ) / ((10 : ℚ) ^ fp.length))
      else none
  | _ => none

/-- Python `float(s)` applied to a string: strip whitespace, optional sign,
unsigned decimal body.  (Exponents, `inf` and `nan` are not reachable from
the source, whose inputs here consist of digits, dots, spaces and an
optional minus.) -/
def pyFloat (s : String) : Except PyError ℚ :=
  let cs := ((s.data.dropWhile isPySpace).reverse.dropWhile isPySpace).reverse
  match cs with
  | '-' :: body =>
      match parseDecimal body with
      | some q => .ok (-q)
      | none => .error (.valueError s)
  | '+' :: body =>
      match parseDecimal body with
      | some q => .ok q
      | none => .error (.valueError s)
  | body =>
      match parseDecimal body with
      | some q => .ok q
      | none => .error (.valueError s)

/-! ### Hand-compiled regex matchers (conv.py)

All the regexes below are newline-free and anchored `^...$`.  Python `$`
also matches just before a single newline that ends the string, so matching
any of them against `s` is a full match against `s` with at most one final
newline removed. -/

/-- The `$`-anchor adjustment: drop a single trailing newline if present. -/
def dropFinalNewline (cs : List Char) : List Char :=
  if cs.getLast? = some '\n' then cs.dropLast else cs

/-- `WHITESPACE_REGEX = ^ *$` (spaces only, not general whitespace). -/
def matchWhitespace (s : String) : Bool :=
  (dropFinalNewline s.data).all (· = ' ')

/-- Matcher for `-?(cls)+` where `cls` never contains the minus sign. -/
def signBody (cls : Char → Bool) (cs : List Char) : Bool :=
  match cs with
  | '-' :: rest => !rest.isEmpty && rest.all cls
  | _ => !cs.isEmpty && cs.all cls

/-- Matcher for ` ?-?(cls)+` where `cls` never contains the minus sign. -/
def optSpaceSignBody (cls : Char → Bool) (cs : List Char) : Bool :=
  signBody cls cs ||
    (match cs with
     | ' ' :: rest => signBody cls rest
     | _ => false)

/-- Character class of `INTEGER_REGEX`: `\d`, comma, or space. -/
def intClass (c : Char) : Bool := c.isDigit || c = ',' || c = ' '

/-- Character class of `FLOAT_REGEX`: `\d`, comma, dot, or space. -/
def floatClass (c : Char) : Bool := c.isDigit || c = ',' || c = '.' || c = ' '

/-- `INTEGER_REGEX = ^ ?-?(\d|,| )+$` as a Boolean matcher (`re.match`). -/
def matchInteger (s : String) : Bool :=
  optSpaceSignBody intClass (dropFinalNewline s.data)

/-- `FLOAT_REGEX = ^ ?-?(\d|,|\.| )+$` as a Boolean matcher (`re.match`). -/
def matchFloat (s : String) : Bool :=
  optSpaceSignBody floatClass (dropFinalNewline s.data)

/-- Text consumed by a successful `INTEGER_REGEX.match(s).group()`: the
whole string up to the `$` anchor (so without a final newline). -/
def integerMatchGroup (s : String) : Option String :=
  let cs := dropFinalNewline s.data
  if optSpaceSignBody intClass cs then some (String.mk cs) else none

/-- Text consumed by a successful `FLOAT_REGEX.match(s).group()`. -/
def floatMatchGroup (s : String) : Option String :=
  let cs := dropFinalNewline s.data
  if optSpaceSignBody floatClass cs then some (String.mk cs) else none

/-- Strip at most one leading space (for the ` ?` prefix of a pattern whose
body cannot start with a space). -/
def stripOneLeadSpace : List Char → List Char
  | ' ' :: rest => rest
  | cs => cs

/-- Strip at most one trailing space (for the ` ?` suffix of a pattern
whose body cannot end with a space). -/
def stripOneTrailSpace (cs : List Char) : List Char :=
  if cs.getLast? = some ' ' then cs.dropLast else cs

/-- The `\d{4}-\d{2}-\d{2}` core of `DATE_REGEX`. -/
def dateCore (cs : List Char) : Bool :=
  match cs with
  | [y1, y2, y3, y4, '-', m1, m2, '-', d1, d2] =>
      y1.isDigit && y2.isDigit && y3.isDigit && y4.isDigit &&
      m1.isDigit && m2.isDigit && d1.isDigit && d2.isDigit
  | _ => false

/-- `DATE_REGEX = ^ ?\d{4}-\d{2}-\d{2} ?$` as a Boolean matcher. -/
def matchDate (s : String) : Bool :=
  dateCore (stripOneTrailSpace (stripOneLeadSpace (dropFinalNewline s.data)))

/-- The case-insensitive word alternatives of `BOOLEAN_REGEX`. -/
def booleanWords : List String := ["TRUE", "FALSE", "T", "F", "YES", "NO", "Y", "N"]

/-- `BOOLEAN_REGEX = ^ ?(TRUE|FALSE|T|F|YES|NO|Y|N) ?$` (re.I). -/
def matchBoolean (s : String) : Bool :=
  booleanWords.contains
    (String.mk ((stripOneTrailSpace (stripOneLeadSpace (dropFinalNewline s.data))).map
      Char.toUpper))

/-- `TRUE_REGEX = ^(TRUE|T|YES|Y)$` (re.I). -/
def matchTrue (s : String) : Bool :=
  (["TRUE", "T", "YES", "Y"] : List String).contains
    (String.mk ((dropFinalNewline s.data).map Char.toUpper))

/-- `FALSE_REGEX = ^(FALSE|F|NO|N)$` (re.I). -/
def matchFalse (s : String) : Bool :=
  (["FALSE", "F", "NO", "N"] : List String).contains
    (String.mk ((dropFinalNewline s.data).map Char.toUpper))

/-! ### conv.py: sniff_and_allow_blanks -/

/-- Loop body of `sniff_and_allow_blanks`, with the `non_match` and
`one_match` flags as accumulators.  On a value matching neither the
pattern nor `WHITESPACE_REGEX` the source sets `non_match = True` and
breaks, after which `(non_match is False) and one_match` is `False`. -/
def sniffLoop (p : String → Bool) (nonMatch oneMatch : Bool) :
    List String → Bool
  | [] => !nonMatch && oneMatch
  | v :: rest =>
      if p v then sniffLoop p nonMatch true rest
      else if matchWhitespace v then sniffLoop p nonMatch oneMatch rest
      else false

/-- `conv.sniff_and_allow_blanks(regex, values)`; the regex is represented
by its `re.match` function. -/
def sniff_and_allow_blanks (p : String → Bool) (values : List String) : Bool :=
  sniffLoop p false false values

/-! ### datetime.date.fromisoformat -/

/-- Gregorian leap-year test. -/
def isLeapYear (y : Nat) : Bool :=
  y % 4 = 0 && (y % 100 ≠ 0 || y % 400 = 0)

/-- Days in a month of the proleptic Gregorian calendar. -/
def daysInMonth (y m : Nat) : Nat :=
  if m = 1 || m = 3 || m = 5 || m = 7 || m = 8 || m = 10 || m = 12 then 31
  else if m = 4 || m = 6 || m = 9 || m = 11 then 30
  else if m = 2 then (if isLeapYear y then 29 else 28)
  else 0

/-- `datetime.date.fromisoformat(s)`: exactly `YYYY-MM-DD` with all-digit
fields, then the `date` constructor validation (`MINYEAR = 1`, month in
1..12, day in 1..days-of-month); anything else raises `ValueError`. -/
def date_fromisoformat (s : String) : Except PyError PyDate :=
  match s.data with
  | [y1, y2, y3, y4, '-', m1, m2, '-', d1, d2] =>
      if y1.isDigit && y2.isDigit && y3.isDigit && y4.isDigit &&
         m1.isDigit && m2.isDigit && d1.isDigit && d2.isDigit then
        let y := digitsToNat [y1, y2, y3, y4]
        let m := digitsToNat [m1, m2]
        let d := digitsToNat [d1, d2]
        if 1 ≤ y && 1 ≤ m && m ≤ 12 && 1 ≤ d && d ≤ daysInMonth y m then
          .ok ⟨y, m, d⟩
        else .error (.valueError s)
      else .error (.valueError s)
  | _ => .error (.valueError s)

/-! ### conv.py: converter classes

`conv.py` raises each conversion failure as `exc.UnconvertableValueException()`
with zero arguments, but `exc.py` declares
`UnconvertableValueException.__init__(self, expected_type, string)` with two
required positional arguments.  Evaluating that call therefore raises
`TypeError`, not an `UnconvertableValueException`; the embedding records
this outcome literally. -/

/-- The `TypeError` produced by evaluating `exc.UnconvertableValueException()`
against the two-required-argument constructor declared in `exc.py`. -/
def uncvZeroArgError : PyError :=
  .typeError "UnconvertableValueException.__init__ missing 2 required positional arguments"

/-- `DateConverter.sniff`. -/
def DateConverter.sniff (values : List String) : Bool :=
  sniff_and_allow_blanks matchDate values

/-- `DateConverter.convert`. -/
def DateConverter.convert (value : String) : Except PyError (Option PyDate) :=
  let stripped := pyStrip value
  if stripped = "" then .ok none
  else
    match date_fromisoformat stripped with
    | .ok d => .ok (some d)
    | .error _ => .error uncvZeroArgError

/-- `IntegerConverter.sniff`. -/
def IntegerConverter.sniff (values : List String) : Bool :=
  sniff_and_allow_blanks matchInteger values

/-- `s.replace(",", "")`: removing every comma is dropping the comma
characters. -/
def removeCommas (s : String) : String :=
  String.mk (s.data.filter (fun c => !(c = ',')))

/-- `IntegerConverter.convert`: strip/blank check, re-match against
`INTEGER_REGEX`, then `int(match.group().replace(",", ""))`.  A failed
re-match evaluates the zero-argument exception constructor (`TypeError`);
a failed `int()` parse raises `ValueError`. -/
def IntegerConverter.convert (value : String) : Except PyError (Option Int) :=
  let stripped := pyStrip value
  if stripped = "" then .ok none
  else
    match integerMatchGroup value with
    | none => .error uncvZeroArgError
    | some g => (pyInt (removeCommas g)).map some

/-- `FloatConverter.sniff`. -/
def FloatConverter.sniff (values : List String) : Bool :=
  sniff_and_allow_blanks matchFloat values

/-- `FloatConverter.convert`: strip/blank check, re-match against
`FLOAT_REGEX`, then `float(match.group().replace(",", ""))`. -/
def FloatConverter.convert (value : String) : Except PyError (Option ℚ) :=
  let stripped := pyStrip value
  if stripped = "" then .ok none
  else
    match floatMatchGroup value with
    | none => .error uncvZeroArgError
    | some g => (pyFloat (removeCommas g)).map some

/-- `BooleanConverter.sniff`. -/
def BooleanConverter.sniff (values : List String) : Bool :=
  sniff_and_allow_blanks matchBoolean values

/-- `BooleanConverter.convert`: strip/blank check, then match the stripped
value against `FALSE_REGEX` and `TRUE_REGEX` in that order. -/
def BooleanConverter.convert (value : String) : Except PyError (Option Bool) :=
  let stripped := pyStrip value
  if stripped = "" then .ok none
  else if matchFalse stripped then .ok (some false)
  else if matchTrue stripped then .ok (some true)
  else .error uncvZeroArgError

/-! ### value_objs.py -/

/-- The `PythonType` union of `value_objs.py` (`Union[int, bool, float,
date, str, None]`, with `None` handled separately as `Option`). -/
inductive PyValue where
  | int (n : Int)
  | float (q : ℚ)
  | bool (b : Bool)
  | date (d : PyDate)
  | str (s : String)
deriving DecidableEq, Repr

/-- `ColumnType.example`: the example value of each variant (the FLOAT
example `3.14` is the exact rational of the Python literal). -/
def ColumnType.example : ColumnType → PyValue
  | .TEXT => .str "foo"
  | .INTEGER => .int 1
  | .FLOAT => .float (3.14 : ℚ)
  | .BOOLEAN => .bool false
  | .DATE => .date ⟨2018, 1, 3⟩

/-- Python `str()` applied to each concrete `ColumnType.example()` value:
`str(1) = "1"`, `str(3.14) = "3.14"`, `str(False) = "False"`,
`str(date(2018, 1, 3)) = "2018-01-03"`, `str("foo") = "foo"`. -/
def ColumnType.exampleStr : ColumnType → String
  | .TEXT => "foo"
  | .INTEGER => "1"
  | .FLOAT => "3.14"
  | .BOOLEAN => "False"
  | .DATE => "2018-01-03"

/-- `value_objs.Column`: an immutable name/type pair. -/
structure Column where
  name : String
  type_ : ColumnType
deriving DecidableEq, Repr

/-- The `op` literal of `value_objs.KeySet`. -/
inductive KeySetOp where
  | greater_than
  | less_than
deriving DecidableEq, Repr

/-- `value_objs.KeySet`: a plain dataclass; the source performs no
validation of any field (`size` has dataclass default `10`, which no claim
depends on, so the embedding takes it as an ordinary field). -/
structure KeySet where
  columns : List Column
  values : List PyValue
  op : KeySetOp
  size : Int
deriving DecidableEq, Repr

/-- `value_objs.RowCount`. -/
structure RowCount where
  exact : Option Int
  approx : Int
deriving DecidableEq, Repr

/-- `RowCount.best`, which is `self.exact or self.approx`: Python `or`
returns the right operand when the left is falsy, and both `None` and the
integer `0` are falsy. -/
def RowCount.best (rc : RowCount) : Int :=
  match rc.exact with
  | none => rc.approx
  | some n => if n = 0 then rc.approx else n

/-- Conversion dispatched by column type, as needed by the round-trip
property.  The TEXT case is absent from the source tree.

Modelled from the spec: no TEXT converter exists in `conv.py`; per spec
§4.2 the TEXT convert semantics is the identity, with the blank string a
valid TEXT value rather than a Blank. -/
def convertCell (t : ColumnType) (value : String) : Except PyError (Option PyValue) :=
  match t with
  | .INTEGER => (IntegerConverter.convert value).map (·.map PyValue.int)
  | .FLOAT => (FloatConverter.convert value).map (·.map PyValue.float)
  | .BOOLEAN => (BooleanConverter.convert value).map (·.map PyValue.bool)
  | .DATE => (DateConverter.convert value).map (·.map PyValue.date)
  | .TEXT => .ok (some (.str value))

/-! ### streams.py: streams and helpers -/

/-- A seekable/tellable stream over fixed content, as used by
`streams.py`; `pos` is the read position (`tell()`). -/
structure ByteStream where
  content : String
  pos : Nat
deriving DecidableEq, Repr

/-- `stream.read(n)`: the next `n` characters from the current position,
advancing the position by the amount actually read. -/
def ByteStream.read (s : ByteStream) (n : Nat) : String × ByteStream :=
  (String.mk ((s.content.data.drop s.pos).take n),
   { s with pos := min (s.pos + n) s.content.data.length })

/-- `stream.seek(0)`, the body of `rewind.__exit__`. -/
def ByteStream.seekStart (s : ByteStream) : ByteStream :=
  { s with pos := 0 }

/-- The content from the current position onward. -/
def ByteStream.rest (s : ByteStream) : String :=
  String.mk (s.content.data.drop s.pos)

/-- An incremental charset detector (the external `cchardet`
`UniversalDetector`), as a pluggable strategy: a state type with `feed`,
a confidence flag and an optional detected encoding. -/
structure Detector (D : Type) where
  feed : D → String → D
  done : D → Bool
  result : D → Option String

/-- `readlines` line splitting on a byte stream: split after each newline,
keeping it; a final piece without a newline is kept too. -/
def splitLinesKeepAux (acc : List Char) : List Char → List (List Char)
  | [] => if acc.isEmpty then [] else [acc.reverse]
  | c :: cs =>
      if c = '\n' then (c :: acc).reverse :: splitLinesKeepAux [] cs
      else splitLinesKeepAux (c :: acc) cs

/-- `stream.readlines()` content, as a list of strings. -/
def splitLinesKeep (s : String) : List String :=
  (splitLinesKeepAux [] s.data).map String.mk

/-- The detection loop of `byte_buf_to_str_buf`: feed each line, stop when
the detector is confident or the 1 MB cap is hit.  (`readlines()` has
already consumed the whole stream, so `tell()` is the same at every
iteration and is passed as a constant.) -/
def detectLoop {D : Type} (det : Detector D) (tell : Nat) :
    D → List String → D
  | d, [] => d
  | d, line :: rest =>
      let d1 := det.feed d line
      if det.done d1 then d1
      else if tell > 1000000 then d1
      else detectLoop det tell d1 rest

/-- `streams.byte_buf_to_str_buf`: run charset detection over the lines of
the stream inside `with rewind(byte_buf)`, fall back to `"utf-8"` when
nothing was detected, and hand the (rewound) stream to a decoding reader.
The returned reader is modelled as the chosen encoding name paired with
the stream it wraps. -/
def byte_buf_to_str_buf {D : Type} (det : Detector D) (d0 : D)
    (byte_buf : ByteStream) : String × ByteStream :=
  let lines := splitLinesKeep byte_buf.rest
  let s1 : ByteStream := { byte_buf with pos := byte_buf.content.data.length }
  let dFinal := detectLoop det s1.pos d0 lines
  let s2 := s1.seekStart
  let encoding :=
    match det.result dFinal with
    | some enc => enc
    | none => "utf-8"
  (encoding, s2)

/-- A concrete CSV dialect (delimiter/quoting configuration).  Only its
identity matters to this core, so it is carried as an opaque name. -/
structure Dialect where
  name : String
deriving DecidableEq, Repr

/-- `csv.excel`, the fallback dialect. -/
def Dialect.excel : Dialect := ⟨"excel"⟩

/-- `streams.sniff_csv` with the external `csv.Sniffer` as a parameter:
`none` models `sniffer.sniff` raising `csv.Error`, in which case the
dialect falls back to `csv.excel`; the stream is rewound on exit of the
`with rewind` block in both cases.  The sample size hint is the default
8192. -/
def sniff_csv (sniffer : String → Option Dialect) (csv_buf : ByteStream) :
    Dialect × ByteStream :=
  let (sample, s1) := csv_buf.read 8192
  let dialect :=
    match sniffer sample with
    | some d => d
    | none => Dialect.excel
  (dialect, s1.seekStart)

/-! ### streams.py: peek_csv -/

/-- Errors raised by `peek_csv`:  `exc.BlankCSVException`,
`exc.TableDefinitionMismatchException`, and the `StopIteration` that
`next(reader)` raises when the reader yields no rows at all. -/
inductive StreamError where
  | blankCSV (msg : String)
  | tableDefinitionMismatch
  | stopIteration
deriving DecidableEq, Repr

/-- The blank-file test of `peek_csv`: `len(buf) == 0 or buf.isspace()`. -/
def isBlankBuf (buf : String) : Bool :=
  buf.data.length = 0 || pyIsSpaceStr buf

/-- Insertion into a Python `dict`: an existing key keeps its position and
takes the new value; a new key is appended. -/
def pyDictInsert {α : Type} (d : List (String × α)) (k : String) (v : α) :
    List (String × α) :=
  if d.any (fun p => p.1 = k) then
    d.map (fun p => if p.1 = k then (k, v) else p)
  else d ++ [(k, v)]

/-- Python `dict(pairs)`: insertion-ordered, last value wins per key. -/
def pyDict {α : Type} (ps : List (String × α)) : List (String × α) :=
  ps.foldl (fun d p => pyDictInsert d p.1 p.2) []

/-- Python `d[k]` as an option (`none` models `KeyError`). -/
def pyDictGet {α : Type} (d : List (String × α)) (k : String) : Option α :=
  (d.find? (fun p => p.1 = k)).map (fun p => p.2)

/-- Python `zip(*rows)`: transpose, truncated to the shortest row. -/
def pyZipStar (rows : List (List String)) : List (List String) :=
  match rows with
  | [] => []
  | r0 :: rest =>
      let n := rest.foldl (fun m r => min m r.length) r0.length
      (List.range n).map (fun i => rows.map (fun r => r.getD i ""))

/-- Header fixing in `peek_csv`:
`[header or f"col{i}" for i, header in enumerate(next(reader), start=1)]`
(a blank header cell becomes the positional placeholder). -/
def substituteBlankHeaders (row : List String) : List String :=
  (row.enumFrom 1).map (fun p => if p.2 = "" then "col" ++ toString p.1 else p.2)

/-- The lookup loop of the `existing_columns` branch of `peek_csv`: for
each header in file order, `existing_map[header]`, with `KeyError`
re-raised as `exc.TableDefinitionMismatchException`. -/
def lookupLoop (m : List (String × Column)) :
    List String → Except StreamError (List Column)
  | [] => .ok []
  | h :: rest =>
      match pyDictGet m h with
      | some c => (lookupLoop m rest).map (fun cols => c :: cols)
      | none => .error .tableDefinitionMismatch

/-- The `existing_columns` branch of `peek_csv`:
build `existing_map = {c.name: c for c in existing_columns}` and look up
each header. -/
def columnsForHeaders (headers : List String) (existingColumns : List Column) :
    Except StreamError (List Column) :=
  lookupLoop (pyDict (existingColumns.map (fun c => (c.name, c)))) headers

/-- Column-type choice of the inference loop in `peek_csv`: the reserved
row-id name is always INTEGER; otherwise the first of the integer, float,
boolean and date sniffers to accept the values wins, with TEXT as the
fallback. -/
def inferColumnType (key : String) (values : List String) : ColumnType :=
  if key = "csvbase_row_id" || IntegerConverter.sniff values then .INTEGER
  else if FloatConverter.sniff values then .FLOAT
  else if BooleanConverter.sniff values then .BOOLEAN
  else if DateConverter.sniff values then .DATE
  else .TEXT

/-- The fresh-table inference of `peek_csv`: take up to 1000 data rows,
transpose (`zip(*...)`), pair with the headers into a dict of distinct
value sets (`set(v)` modelled as first-occurrence dedup, which the
order-independent sniffers cannot distinguish from a hash set), and run
the type choice per entry. -/
def inferColumns (headers : List String) (dataRows : List (List String)) :
    List Column :=
  let firstFew := pyZipStar (dataRows.take 1000)
  let asDict := pyDict (headers.zip (firstFew.map List.eraseDups))
  asDict.map (fun p => ⟨p.1, inferColumnType p.1 p.2⟩)

/-- The row handling of `peek_csv` after the dialect is known: `next(reader)`
(raising `StopIteration` when no row exists), header fixing, then either the
`existing_columns` lookup branch or fresh inference. -/
def peekRows (dialect : Dialect) (rows : List (List String))
    (existingColumns : Option (List Column)) :
    Except StreamError (Dialect × List Column) :=
  match rows with
  | [] => .error .stopIteration
  | headerRow :: dataRows =>
      let headers := substituteBlankHeaders headerRow
      match existingColumns with
      | some existing =>
          (columnsForHeaders headers existing).map (fun cols => (dialect, cols))
      | none => .ok (dialect, inferColumns headers dataRows)

/-- `streams.peek_csv`, with the external `csv.Sniffer` and `csv.reader`
as parameters (`parse dialect text` is the row list the reader yields).
Both `with rewind` blocks rewind the stream on every exit, including the
raising ones; the reader is modelled as leaving the stream at
end-of-content inside the second block (the block rewinds regardless). -/
def peek_csv (sniffer : String → Option Dialect)
    (parse : Dialect → String → List (List String))
    (csv_buf : ByteStream) (existingColumns : Option (List Column)) :
    Except StreamError (Dialect × List Column) × ByteStream :=
  let (buf, s1) := csv_buf.read 2048
  let s1r := s1.seekStart
  if isBlankBuf buf then
    (.error (.blankCSV "blank csv file!"), s1r)
  else
    let (dialect, s2) := sniff_csv sniffer s1r
    let rows := parse dialect s2.rest
    let s3 : ByteStream := { s2 with pos := s2.content.data.length }
    (peekRows dialect rows existingColumns, s3.seekStart)

/-! ### Specification-side definitions (for refinement comparisons) -/

/-- Spec-side statement of the inference priority (spec §4.5, step 6): the
candidate types and their sniffers in the fixed order INTEGER, FLOAT,
BOOLEAN, DATE. -/
def specSnifferOrder : List (ColumnType × (List String → Bool)) :=
  [(.INTEGER, IntegerConverter.sniff), (.FLOAT, FloatConverter.sniff),
   (.BOOLEAN, BooleanConverter.sniff), (.DATE, DateConverter.sniff)]

/-- Spec-side column typing: the reserved row-id name is special-cased to
INTEGER; otherwise the first type in `specSnifferOrder` whose sniffer
accepts the values, with TEXT as the universal fallback. -/
def specInferColumnType (key : String) (values : List String) : ColumnType :=
  if key = "csvbase_row_id" then .INTEGER
  else
    match specSnifferOrder.find? (fun p => p.2 values) with
    | some p => p.1
    | none => .TEXT

/-! ### Helper lemmas -/

/-- Characterization of the `sniff_and_allow_blanks` loop with `non_match`
still false: the loop accepts exactly when a match was already seen or some
value matches, and every value matches the pattern or the blank test. -/
theorem sniffLoop_false_eq (p : String → Bool) (values : List String) :
    ∀ oneMatch : Bool,
      (sniffLoop p false oneMatch values = true ↔
        ((oneMatch = true ∨ ∃ v ∈ values, p v = true) ∧
         ∀ v ∈ values, p v = true ∨ matchWhitespace v = true)) := by
  induction values with
  | nil => intro oneMatch; simp [sniffLoop]
  | cons v rest ih =>
    intro oneMatch
    by_cases hp : p v = true
    · rw [show sniffLoop p false oneMatch (v :: rest) = sniffLoop p false true rest by
        simp [sniffLoop, hp]]
      rw [ih true]
      simp [hp]
    · by_cases hw : matchWhitespace v = true
      · rw [show sniffLoop p false oneMatch (v :: rest) = sniffLoop p false oneMatch rest by
          simp [sniffLoop, hp, hw]]
        rw [ih oneMatch]
        simp [hp, hw]
      · rw [show sniffLoop p false oneMatch (v :: rest) = false by
          simp [sniffLoop, hp, hw]]
        simp [hp, hw]

/-- Overwriting an existing key leaves the key list unchanged. -/
theorem pyDictInsert_overwrite_map_fst {α : Type} (d : List (String × α))
    (k : String) (v : α) :
    ((d.map fun p => if p.1 = k then (k, v) else p).map Prod.fst) =
      d.map Prod.fst := by
  rw [List.map_map]
  apply List.map_congr_left
  intro p _
  by_cases h : p.1 = k
  · simp [h]
  · simp [h]

/-- Key membership after a Python dict insertion. -/
theorem pyDictInsert_map_fst_mem {α : Type} (d : List (String × α))
    (k a : String) (v : α) :
    (a ∈ (pyDictInsert d k v).map Prod.fst ↔ a ∈ d.map Prod.fst ∨ a = k) := by
  unfold pyDictInsert
  split
  · rename_i hany
    rw [pyDictInsert_overwrite_map_fst]
    constructor
    · exact Or.inl
    · rintro (h | rfl)
      · exact h
      · rcases List.any_eq_true.1 hany with ⟨p, hp, hpk⟩
        simp only [List.mem_map]
        exact ⟨p, hp, by simpa using hpk⟩
  · rw [List.map_append]
    simp

/-- Python dict insertion preserves distinctness of keys. -/
theorem pyDictInsert_nodup {α : Type} (d : List (String × α)) (k : String)
    (v : α) (h : (d.map Prod.fst).Nodup) :
    ((pyDictInsert d k v).map Prod.fst).Nodup := by
  unfold pyDictInsert
  split
  · rwa [pyDictInsert_overwrite_map_fst]
  · rename_i hany
    rw [List.map_append]
    rw [List.nodup_append]
    refine ⟨h, by simp, ?_⟩
    intro a ha hb
    have hak : a = k := by simpa using hb
    rcases List.mem_map.1 ha with ⟨p, hp, hpa⟩
    refine absurd ?_ hany
    rw [List.any_eq_true]
    exact ⟨p, hp, by simp [hpa, hak]⟩

/-- Key membership in the fold building a Python dict. -/
theorem pyDict_fold_mem {α : Type} (ps : List (String × α)) :
    ∀ (d : List (String × α)) (a : String),
      (a ∈ ((ps.foldl (fun d p => pyDictInsert d p.1 p.2) d).map Prod.fst) ↔
        a ∈ d.map Prod.fst ∨ a ∈ ps.map Prod.fst) := by
  induction ps with
  | nil => simp
  | cons p ps ih =>
    intro d a
    rw [List.foldl_cons, ih, pyDictInsert_map_fst_mem]
    simp
    tauto

/-- The keys of a Python dict are the keys of the pair list. -/
theorem pyDict_mem_fst {α : Type} (ps : List (String × α)) (a : String) :
    (a ∈ (pyDict ps).map Prod.fst ↔ a ∈ ps.map Prod.fst) := by
  unfold pyDict
  rw [pyDict_fold_mem]
  simp

/-- Distinct keys of the fold building a Python dict. -/
theorem pyDict_fold_nodup {α : Type} (ps : List (String × α)) :
    ∀ d : List (String × α), (d.map Prod.fst).Nodup →
      (((ps.foldl (fun d p => pyDictInsert d p.1 p.2) d).map Prod.fst).Nodup) := by
  induction ps with
  | nil => intro d h; simpa using h
  | cons p ps ih =>
    intro d h
    rw [List.foldl_cons]
    exact ih _ (pyDictInsert_nodup _ _ _ h)

/-- A Python dict has distinct keys. -/
theorem pyDict_nodup {α : Type} (ps : List (String × α)) :
    ((pyDict ps).map Prod.fst).Nodup :=
  pyDict_fold_nodup ps [] (by simp)

/-- Every entry after a Python dict insertion is an old entry or the
inserted pair. -/
theorem pyDictInsert_entry_mem {α : Type} (d : List (String × α))
    (k : String) (v : α) (p : String × α) (hp : p ∈ pyDictInsert d k v) :
    p ∈ d ∨ p = (k, v) := by
  unfold pyDictInsert at hp
  split at hp
  · rcases List.mem_map.1 hp with ⟨q, hq, hfq⟩
    by_cases h : q.1 = k
    · right
      simp [h] at hfq
      exact hfq.symm
    · left
      simp [h] at hfq
      rwa [← hfq]
  · rcases List.mem_append.1 hp with h | h
    · exact Or.inl h
    · right
      simpa using h

/-- Every entry of the fold building a Python dict comes from the initial
dict or the pair list. -/
theorem pyDict_fold_entry {α : Type} (ps : List (String × α)) :
    ∀ (d : List (String × α)) (p : String × α),
      p ∈ ps.foldl (fun d q => pyDictInsert d q.1 q.2) d → p ∈ d ∨ p ∈ ps := by
  induction ps with
  | nil => intro d p hp; exact Or.inl hp
  | cons q ps ih =>
    intro d p hp
    rw [List.foldl_cons] at hp
    rcases ih _ p hp with h | h
    · rcases pyDictInsert_entry_mem _ _ _ _ h with h2 | h2
      · exact Or.inl h2
      · right
        simp [h2]
    · right
      simp [h]

/-- Every entry of a Python dict comes from the pair list. -/
theorem pyDict_entry_mem {α : Type} (ps : List (String × α))
    (p : String × α) (hp : p ∈ pyDict ps) : p ∈ ps := by
  rcases pyDict_fold_entry ps [] p hp with h | h
  · cases h
  · exact h

/-- A key lookup fails exactly when the key is absent. -/
theorem pyDictGet_none_iff {α : Type} (d : List (String × α)) (k : String) :
    (pyDictGet d k = none ↔ k ∉ d.map Prod.fst) := by
  unfold pyDictGet
  rw [Option.map_eq_none', List.find?_eq_none]
  simp
  constructor
  · intro h x hx
    exact h k x hx rfl
  · intro h a b hab hak
    subst hak
    exact h b hab

/-- A successful key lookup returns a stored entry for that key. -/
theorem pyDictGet_some_entry {α : Type} (d : List (String × α)) (k : String)
    (c : α) (h : pyDictGet d k = some c) : (k, c) ∈ d := by
  unfold pyDictGet at h
  cases hf : d.find? (fun p => p.1 = k) with
  | none => rw [hf] at h; cases h
  | some q =>
    rw [hf] at h
    have hm := List.mem_of_find?_eq_some hf
    have hq : q.1 = k := by simpa using List.find?_some hf
    have hc : q.2 = c := by simpa using h
    have : q = (k, c) := by
      cases q
      simp at hq hc
      simp [hq, hc]
    rwa [this] at hm

/-- If some header is missing from the map, the lookup loop raises the
mismatch error. -/
theorem lookupLoop_error (m : List (String × Column)) :
    ∀ hdrs : List String, (∃ h ∈ hdrs, pyDictGet m h = none) →
      lookupLoop m hdrs = .error .tableDefinitionMismatch := by
  intro hdrs
  induction hdrs with
  | nil => rintro ⟨x, hx, _⟩; cases hx
  | cons h rest ih =>
    rintro ⟨x, hx, hnone⟩
    unfold lookupLoop
    cases hmem : pyDictGet m h with
    | none => simp
    | some c =>
      rcases List.mem_cons.1 hx with rfl | hxr
      · rw [hmem] at hnone; cases hnone
      · simp [ih ⟨x, hxr, hnone⟩]
        rfl

/-- If every header is found, the loop returns the looked-up columns in
header order. -/
theorem lookupLoop_ok (m : List (String × Column)) :
    ∀ hdrs : List String, (∀ h ∈ hdrs, pyDictGet m h ≠ none) →
      ∃ cols, lookupLoop m hdrs = .ok cols ∧
        List.Forall₂ (fun h c => pyDictGet m h = some c) hdrs cols := by
  intro hdrs
  induction hdrs with
  | nil => intro _; exact ⟨[], rfl, List.Forall₂.nil⟩
  | cons h rest ih =>
    intro hall
    cases hmem : pyDictGet m h with
    | none => exact absurd hmem (hall h (by simp))
    | some c =>
      rcases ih (fun x hx => hall x (by simp [hx])) with ⟨cols, hok, hf⟩
      refine ⟨c :: cols, ?_, List.Forall₂.cons hmem hf⟩
      unfold lookupLoop
      simp [hmem, hok]
      rfl

/-- Right-hand membership projection out of a `Forall₂`. -/
theorem forall₂_right_mem {R : String → Column → Prop} :
    ∀ {hs : List String} {cs : List Column}, List.Forall₂ R hs cs →
      ∀ c ∈ cs, ∃ h ∈ hs, R h c := by
  intro hs cs hf
  induction hf with
  | nil => intro c hc; cases hc
  | cons h1 _ ih =>
    intro c hc
    rcases List.mem_cons.1 hc with rfl | hcm
    · exact ⟨_, by simp, h1⟩
    · rcases ih c hcm with ⟨h, hh, hr⟩
      exact ⟨h, by simp [hh], hr⟩

/-- The keys of `existing_map` are exactly the existing column names. -/
theorem existingMap_keys (existing : List Column) (k : String) :
    (k ∈ (pyDict (existing.map fun c => (c.name, c))).map Prod.fst ↔
      k ∈ existing.map Column.name) := by
  rw [pyDict_mem_fst, List.map_map]
  rfl

/-- A successful `existing_map` lookup returns an existing column carrying
the looked-up name. -/
theorem existingMap_get_some (existing : List Column) (h : String) (c : Column)
    (hg : pyDictGet (pyDict (existing.map fun c => (c.name, c))) h = some c) :
    c.name = h ∧ c ∈ existing := by
  have hmem := pyDict_entry_mem _ _ (pyDictGet_some_entry _ _ _ hg)
  rcases List.mem_map.1 hmem with ⟨col, hcol, heq⟩
  have h1 : col.name = h := congrArg Prod.fst heq
  have h2 : col = c := congrArg Prod.snd heq
  subst h2
  exact ⟨h1, hcol⟩

/-- With an existing schema, the row handling depends on the parsed rows
only through the header row. -/
theorem peekRows_existing_head (d : Dialect) (rows1 rows2 : List (List String))
    (existing : List Column) (h : rows1.head? = rows2.head?) :
    peekRows d rows1 (some existing) = peekRows d rows2 (some existing) := by
  cases rows1 with
  | nil =>
    cases rows2 with
    | nil => rfl
    | cons r2 t2 => simp at h
  | cons r1 t1 =>
    cases rows2 with
    | nil => simp at h
    | cons r2 t2 =>
      simp at h
      subst h
      rfl

/-! ### Claim theorems -/

/-- C1 (counterexample): the source INTEGER regex itself matches the
single-space string, so `sniff_and_allow_blanks` applied to it and the
whitespace-only sequence `[" "]` returns `true`, refuting the claim that
for any pattern a sequence of only whitespace-only strings yields `false`. -/
theorem C1_counterexample :
    (" " : String).data.all isPySpace = true ∧
    sniff_and_allow_blanks matchInteger [" "] = true := by
  constructor
  · decide
  · decide

/-- C1 (amended): `sniff_and_allow_blanks` returns true iff at least one
value matches the pattern and every value matches the pattern or the blank
regex; consequently a sequence none of whose values match the pattern
(in particular a whitespace-only sequence under a pattern that matches no
whitespace-only string) yields false. -/
theorem C1_blank_tolerance (p : String → Bool) (values : List String) :
    (sniff_and_allow_blanks p values = true ↔
      ((∃ v ∈ values, p v = true) ∧
       ∀ v ∈ values, p v = true ∨ matchWhitespace v = true)) ∧
    ((∀ v ∈ values, p v = false) → sniff_and_allow_blanks p values = false) := by
  have h := sniffLoop_false_eq p values false
  constructor
  · unfold sniff_and_allow_blanks
    rw [h]
    simp
  · intro hall
    cases hres : sniff_and_allow_blanks p values with
    | false => rfl
    | true =>
      unfold sniff_and_allow_blanks at hres
      rw [h] at hres
      rcases hres.1 with h1 | ⟨v, hv, hpv⟩
      · cases h1
      · rw [hall v hv] at hpv
        cases hpv

/-- C1 (witness for the amended claim): the DATE pattern matches no value
of the whitespace-only sequence `[" ", ""]`, and the sniff returns false. -/
theorem C1_blank_tolerance_witness :
    matchDate " " = false ∧ matchDate "" = false ∧
    sniff_and_allow_blanks matchDate [" ", ""] = false :=
  ⟨by decide, by decide, (C1_blank_tolerance matchDate [" ", ""]).2 (by decide)⟩

/-- C2 (code bug): on `"1 2"` the integer converter re-matches successfully
but `int("1 2")` raises an uncaught `ValueError`; likewise `float("1.2.3")`;
and on a value failing the re-match, evaluating the zero-argument
`exc.UnconvertableValueException()` call raises `TypeError` because the
constructor declared in `exc.py` requires two positional arguments — so no
path raises an `UnconvertableValue` carrying the expected type and raw
string. -/
theorem C2_convert_errors :
    IntegerConverter.convert "1 2" = .error (.valueError "1 2") ∧
    FloatConverter.convert "1.2.3" = .error (.valueError "1.2.3") ∧
    IntegerConverter.convert "abc" =
      .error (.typeError
        "UnconvertableValueException.__init__ missing 2 required positional arguments") := by
  refine ⟨by decide, by decide, by decide⟩

/-- C3: the inference loop of `peek_csv` refines the spec-side fixed
priority order (row-id name special-cased to INTEGER, then the first of
INTEGER, FLOAT, BOOLEAN, DATE whose sniffer accepts, else TEXT); and the
sample `{"1", "2", ""}` infers INTEGER even though the FLOAT sniffer also
accepts it. -/
theorem C3_priority_order (key : String) (values : List String) :
    inferColumnType key values = specInferColumnType key values ∧
    inferColumnType "a" ["1", "2", ""] = ColumnType.INTEGER ∧
    FloatConverter.sniff ["1", "2", ""] = true := by
  refine ⟨?_, by decide, by decide⟩
  unfold inferColumnType specInferColumnType specSnifferOrder
  by_cases hk : key = "csvbase_row_id"
  · simp [hk]
  · cases hI : IntegerConverter.sniff values <;>
      cases hF : FloatConverter.sniff values <;>
        cases hB : BooleanConverter.sniff values <;>
          cases hD : DateConverter.sniff values <;>
            simp [hk, hI, hF, hB, hD, List.find?]

/-- C4: with an existing schema, any header name absent from the existing
columns raises the table-definition mismatch; otherwise the lookup returns,
for each header in file order, the existing column of that name; and with
an existing schema `peek_csv` depends on the parsed rows only through the
header row, so sampled values are ignored and inference never runs. -/
theorem C4_existing_schema :
    (∀ (headers : List String) (existing : List Column),
        (∃ h ∈ headers, h ∉ existing.map Column.name) →
          columnsForHeaders headers existing = .error .tableDefinitionMismatch) ∧
    (∀ (headers : List String) (existing : List Column),
        (∀ h ∈ headers, h ∈ existing.map Column.name) →
          ∃ cols, columnsForHeaders headers existing = .ok cols ∧
            cols.map Column.name = headers ∧ ∀ c ∈ cols, c ∈ existing) ∧
    (∀ (sniffer : String → Option Dialect)
        (parse1 parse2 : Dialect → String → List (List String))
        (s : ByteStream) (existing : List Column),
        (∀ d text, (parse1 d text).head? = (parse2 d text).head?) →
          peek_csv sniffer parse1 s (some existing) =
            peek_csv sniffer parse2 s (some existing)) := by
  refine ⟨?_, ?_, ?_⟩
  · intro headers existing ⟨h, hh, habs⟩
    apply lookupLoop_error
    refine ⟨h, hh, ?_⟩
    rw [pyDictGet_none_iff]
    rw [existingMap_keys]
    exact habs
  · intro headers existing hall
    have hne : ∀ h ∈ headers, pyDictGet (pyDict (existing.map fun c => (c.name, c))) h ≠ none := by
      intro h hh hnone
      rw [pyDictGet_none_iff, existingMap_keys] at hnone
      exact hnone (hall h hh)
    rcases lookupLoop_ok _ headers hne with ⟨cols, hok, hf⟩
    refine ⟨cols, hok, ?_, ?_⟩
    · clear hok hne hall
      induction hf with
      | nil => rfl
      | cons h1 _ ih =>
        rw [List.map_cons, ih, (existingMap_get_some _ _ _ h1).1]
    · intro c hc
      rcases forall₂_right_mem hf c hc with ⟨h, _, hr⟩
      exact (existingMap_get_some _ _ _ hr).2
  · intro sniffer parse1 parse2 s existing hhead
    unfold peek_csv
    split
    dsimp only
    split
    · rfl
    · rw [peekRows_existing_head _ _ _ _ (hhead _ _)]

/-- C5: any stream (positioned at its start) whose first 2048 characters
are empty or all-whitespace makes `peek_csv` raise the blank-input error,
for every dialect sniffer and every CSV parser — so no dialect sniffing or
header parsing can have run. -/
theorem C5_blank_input (sniffer : String → Option Dialect)
    (parse : Dialect → String → List (List String))
    (s : ByteStream) (existingColumns : Option (List Column))
    (hpos : s.pos = 0)
    (hblank : isBlankBuf (String.mk (s.content.data.take 2048)) = true) :
    (peek_csv sniffer parse s existingColumns).1 =
      .error (.blankCSV "blank csv file!") := by
  unfold peek_csv
  unfold ByteStream.read
  rw [hpos, List.drop_zero]
  simp [hblank]

/-- C5 (witness): the zero-byte input at position 0. -/
theorem C5_blank_input_witness :
    (peek_csv (fun _ => none) (fun _ _ => []) ⟨"", 0⟩ none).1 =
      .error (.blankCSV "blank csv file!") :=
  C5_blank_input (fun _ => none) (fun _ _ => []) ⟨"", 0⟩ none rfl (by decide)

/-- C6: the rewind invariant.  After encoding detection, dialect sniffing,
or schema inference, the stream position is exactly 0, on every exit path
(success, sniff fallback, or raised error). -/
theorem C6_rewind_invariant :
    (∀ (D : Type) (det : Detector D) (d0 : D) (s : ByteStream),
        (byte_buf_to_str_buf det d0 s).2.pos = 0) ∧
    (∀ (sniffer : String → Option Dialect) (s : ByteStream),
        (sniff_csv sniffer s).2.pos = 0) ∧
    (∀ (sniffer : String → Option Dialect)
        (parse : Dialect → String → List (List String))
        (s : ByteStream) (existingColumns : Option (List Column)),
        (peek_csv sniffer parse s existingColumns).2.pos = 0) := by
  refine ⟨fun D det d0 s => rfl, fun sniffer s => rfl, ?_⟩
  intro sniffer parse s existingColumns
  unfold peek_csv
  split
  dsimp only
  split
  · rfl
  · rfl

/-- C4 (witness): existing columns `{a: INTEGER, b: TEXT}`; the header
`[a, b, c]` mismatches, the reordered header `[b, a]` returns the existing
columns in file order. -/
theorem C4_existing_schema_witness :
    columnsForHeaders ["a", "b", "c"]
        [⟨"a", ColumnType.INTEGER⟩, ⟨"b", ColumnType.TEXT⟩] =
      .error .tableDefinitionMismatch ∧
    columnsForHeaders ["b", "a"]
        [⟨"a", ColumnType.INTEGER⟩, ⟨"b", ColumnType.TEXT⟩] =
      .ok [⟨"b", ColumnType.TEXT⟩, ⟨"a", ColumnType.INTEGER⟩] := by
  refine ⟨C4_existing_schema.1 ["a", "b", "c"]
    [⟨"a", ColumnType.INTEGER⟩, ⟨"b", ColumnType.TEXT⟩] (by decide), ?_⟩
  rcases C4_existing_schema.2.1 ["b", "a"]
      [⟨"a", ColumnType.INTEGER⟩, ⟨"b", ColumnType.TEXT⟩] (by decide) with
    ⟨cols, hok, hmap, hmem⟩
  decide

/-- C7: for every column type, converting the string form of the example
value yields the example value back (spec-modelled for TEXT, whose
converter is the identity per spec §4.2 and absent from the source). -/
theorem C7_example_round_trip (t : ColumnType) :
    convertCell t (ColumnType.exampleStr t) = .ok (some (ColumnType.example t)) := by
  cases t with
  | TEXT => rfl
  | INTEGER => decide
  | BOOLEAN => decide
  | DATE => decide
  | FLOAT =>
    show Except.map (Option.map PyValue.float) (FloatConverter.convert "3.14") =
      .ok (some (.float (3.14 : ℚ)))
    have h1 : FloatConverter.convert "3.14" =
        .ok (some ((digitsToNat ['3'] : ℚ) +
          (digitsToNat ['1', '4'] : ℚ) / (10 : ℚ) ^ 2)) := rfl
    rw [h1]
    have e1 : digitsToNat ['3'] = 3 := rfl
    have e2 : digitsToNat ['1', '4'] = 14 := rfl
    rw [e1, e2]
    norm_num
    rfl

/-- C8 (counterexample): `KeySet` is a plain dataclass with no validation,
so a keyset with mismatched arity and non-positive size exists, refuting
the claim that every constructed KeySet satisfies the invariant. -/
theorem C8_counterexample :
    (KeySet.mk [⟨"a", ColumnType.INTEGER⟩] [] KeySetOp.greater_than 0).values.length = 0 ∧
    (KeySet.mk [⟨"a", ColumnType.INTEGER⟩] [] KeySetOp.greater_than 0).columns.length = 1 ∧
    (KeySet.mk [⟨"a", ColumnType.INTEGER⟩] [] KeySetOp.greater_than 0).size = 0 :=
  ⟨rfl, rfl, rfl⟩

/-- C8 (amended): the KeySet constructor performs no validation — every
combination of fields, including mismatched arity and non-positive size,
yields a KeySet storing the fields unchanged. -/
theorem C8_no_validation (cols : List Column) (vals : List PyValue)
    (op : KeySetOp) (size : Int) :
    ∃ ks : KeySet, ks.columns = cols ∧ ks.values = vals ∧ ks.op = op ∧
      ks.size = size :=
  ⟨⟨cols, vals, op, size⟩, rfl, rfl, rfl, rfl⟩

/-- C9 (counterexample): `best()` is `self.exact or self.approx`, and the
Python integer 0 is falsy, so a present exact count of 0 is not returned. -/
theorem C9_counterexample :
    (RowCount.mk (some 0) 5).exact = some 0 ∧
    (RowCount.mk (some 0) 5).best = 5 ∧
    (RowCount.mk (some 0) 5).approx = 5 :=
  ⟨rfl, by decide, rfl⟩

/-- C9 (amended): `best()` returns the exact count when it is present and
non-zero; when the exact count is absent or 0 (both falsy in Python), it
returns the approximate count. -/
theorem C9_best (rc : RowCount) :
    (∀ n : Int, n ≠ 0 → rc.exact = some n → rc.best = n) ∧
    ((rc.exact = none ∨ rc.exact = some 0) → rc.best = rc.approx) := by
  constructor
  · intro n hn he
    simp [RowCount.best, he, hn]
  · rintro (he | he) <;> simp [RowCount.best, he]

/-- C9 (witness): a non-zero exact count is preferred; a zero exact count
falls back to the approximation. -/
theorem C9_best_witness :
    (RowCount.mk (some 3) 7).best = 3 ∧ (RowCount.mk (some 0) 7).best = 7 :=
  ⟨(C9_best ⟨some 3, 7⟩).1 3 (by decide) rfl, (C9_best ⟨some 0, 7⟩).2 (Or.inr rfl)⟩

/-- C10: fresh-table inference collapses duplicate header names — the
returned columns have pairwise-distinct names, each drawn from the headers,
and for the duplicated header `[a, a]` the result is strictly shorter than
the header row; and the fresh path raises no error: whenever the blank
check passes and the reader yields at least one row, `peek_csv` without
existing columns returns successfully. -/
theorem C10_duplicate_headers :
    (∀ (headers : List String) (dataRows : List (List String)),
        ((inferColumns headers dataRows).map Column.name).Nodup ∧
        ∀ c ∈ inferColumns headers dataRows, c.name ∈ headers) ∧
    ((inferColumns ["a", "a"] [["1", "2"]]).length <
        (["a", "a"] : List String).length) ∧
    (∀ (sniffer : String → Option Dialect)
        (parse : Dialect → String → List (List String)) (s : ByteStream),
        isBlankBuf (String.mk ((s.content.data.drop s.pos).take 2048)) = false →
        (∀ d text, parse d text ≠ []) →
        ∃ d cols, (peek_csv sniffer parse s none).1 = .ok (d, cols)) := by
  refine ⟨?_, by decide, ?_⟩
  · intro headers dataRows
    constructor
    · have h1 : ((inferColumns headers dataRows).map Column.name) =
          (pyDict (headers.zip
            ((pyZipStar (dataRows.take 1000)).map List.eraseDups))).map Prod.fst := by
        unfold inferColumns
        rw [List.map_map]
        rfl
      rw [h1]
      exact pyDict_nodup _
    · intro c hc
      unfold inferColumns at hc
      rcases List.mem_map.1 hc with ⟨p, hp, hpc⟩
      have hz := pyDict_entry_mem _ _ hp
      have hfst := (List.of_mem_zip hz).1
      rw [← hpc]
      exact hfst
  · intro sniffer parse s hblank hrows
    unfold peek_csv
    split
    rename_i pair sample s1 heq
    have h0 : (String.mk ((s.content.data.drop s.pos).take 2048),
        ({ s with pos := min (s.pos + 2048) s.content.data.length } : ByteStream)) =
          (sample, s1) := by
      rw [← heq]
      rfl
    injection h0 with hsample hs1
    dsimp only
    split
    · rename_i hbl
      rw [← hsample] at hbl
      rw [hbl] at hblank
      cases hblank
    · rename_i hbl
      cases h2 : parse (sniff_csv sniffer s1.seekStart).1
          (sniff_csv sniffer s1.seekStart).2.rest with
      | nil => exact absurd h2 (hrows _ _)
      | cons hr dr => exact ⟨_, _, rfl⟩

/-- C10 (witness): a concrete duplicated-header upload parses successfully. -/
theorem C10_duplicate_headers_witness :
    (peek_csv (fun _ => none)
        (fun _ _ => [["a", "a"], ["1", "2"]]) ⟨"a,a\n1,2\n", 0⟩ none).1 =
      .ok (Dialect.excel, [⟨"a", ColumnType.INTEGER⟩]) := by
  rcases C10_duplicate_headers.2.2 (fun _ => none)
      (fun _ _ => [["a", "a"], ["1", "2"]]) ⟨"a,a\n1,2\n", 0⟩ (by decide)
      (fun d text => by simp) with ⟨d, cols, h⟩
  decide
